import Mathlib

/-!
Verification of the `Offline_Pupil_Detection` orchestrator of
`src/pupil_src/shared_modules/pupil_producers.py` (class starting at line 243).

The orchestrator is single-threaded and driven by callbacks
(`recent_events`, `on_notify`, `cleanup`, `redetect`, ...).  We embed its
mutable attributes as a state record `OPDState`, the observable side effects
(notifications sent via `notify_all`, the data-changed announcement, the
persistence call and the release of the `data_sub` socket) as a list of
`Eff` values, and each method as a pure function `OPDState → OPDState × List Eff`.
Filesystem facts consulted by `start_eye_process` are abstracted into an
`Env` record.  The `pm.PupilDataBisector` container is not under src/, so it
is modelled from the spec (section 3 / 4.1) as a timestamp-ordered list of
detection records.
-/

namespace PupilProducers

/-- Deserialized payload of a `pupil.<eye>` detection message: the fields
read by `Offline_Pupil_Detection.recent_events` (`id`, `timestamp`) plus the
detector tag distinguishing which method produced the datum. -/
structure PupilDatum where
  id : Nat
  timestamp : Rat
  method : String
  deriving Repr, DecidableEq

/-- Modelled from the spec: `pm.PupilDataBisector` is not under src/, so a
stored record follows spec section 3 (DetectionRecord: eye identifier,
detector tag, timestamp, payload), kept together with the topic string it
was appended under. -/
structure DetectionRecord where
  topic : String
  eye_id : Nat
  tag : String
  timestamp : Rat
  datum : PupilDatum
  deriving Repr, DecidableEq

/-- Modelled from the spec: the record built by `append(topic, datum, timestamp)`;
the eye identifier and detector tag partition keys come from the payload. -/
def mkRecord (topic : String) (datum : PupilDatum) : DetectionRecord :=
  { topic := topic, eye_id := datum.id, tag := datum.method,
    timestamp := datum.timestamp, datum := datum }

/-- Modelled from the spec: the Bisected Data Store `append` inserts the new
record preserving the ascending-by-timestamp order of the physical sequence
(spec section 4.1). -/
def storeAppend (store : List DetectionRecord) (topic : String)
    (datum : PupilDatum) : List DetectionRecord :=
  List.orderedInsert (fun a b => a.timestamp ≤ b.timestamp) (mkRecord topic datum) store

/-- Modelled from the spec: record count of the slice `store[eye_id, method]`,
one (eye, detector-tag) key of the Bisected Data Store. -/
def countEye (store : List DetectionRecord) (eye_id : Nat) (method : String) : Nat :=
  (store.filter (fun r => decide (r.eye_id = eye_id ∧ r.tag = method))).length

/-- Modelled from the spec: record count of the full slice `store[:, method]`,
both eyes, one detector tag. -/
def countSlice (store : List DetectionRecord) (method : String) : Nat :=
  (store.filter (fun r => decide (r.tag = method))).length

/-- The mutable attributes of `Offline_Pupil_Detection` that the
orchestration logic reads and writes, plus the `g_pool.pupil_positions`
shared slot written by `correlate_publish`.  The two per-eye lists mirror the
two-element Python lists indexed by `eye_id`. -/
structure OPDState where
  detection_method : String
  detection_status : List String
  eye_video_loc : List (Option String)
  eye_frame_num : List Nat
  store : List DetectionRecord
  pupil_positions : List DetectionRecord
  detection_paused : Bool
  detection_finished_flag : Option Bool
  deriving Repr, DecidableEq

/-- Observable side effects of the orchestrator, in emission order:
notifications sent with `notify_all`, the `announce_new` call of the
pupil-changed announcer, the `save_offline_data` persistence call, and
setting `data_sub` to `None` (releasing the subscription socket). -/
inductive Eff where
  | eyeProcessShouldStart (eye_id : Nat) (source_path : String)
  | eyeProcessShouldStop (eye_id : Nat)
  | fileSourceSeek (frame_index : Nat) (source_path : String)
  | fileSourceShouldPause (source_path : String)
  | fileSourceShouldPlay (source_path : String)
  | setDetectionMappingModeMsg (mode : String)
  | announceNew
  | saveOfflineData
  | releaseDataSub
  deriving Repr, DecidableEq

/-- Filesystem and video-set facts consulted by `start_eye_process`: which
candidate paths exist, whether the `VideoSet` built at a path has no
decodable frames (`videoset.is_empty()`), and its number of valid frames
(`count_nonzero(lookup.container_idx > -1)`). -/
structure Env where
  rec_dir : String
  fileExists : String → Bool
  videosetEmpty : String → Bool
  nValidFrames : String → Nat

/-- The candidate eye-video locations probed by `start_eye_process`:
`os.path.join(rec_dir, "eye{eye_id}{ext}")` for the three extensions. -/
def potential_locs (env : Env) (eye_id : Nat) : List String :=
  [".mjpeg", ".mp4", ".mkv"].map
    (fun ext => env.rec_dir ++ "/eye" ++ toString eye_id ++ ext)

/-- `Offline_Pupil_Detection.start_eye_process` (lines 299-330): probe the
candidate locations; with no existing candidate, or an empty video set at
the first existing one, record the error status and return; otherwise store
the frame count, emit the `eye_process.should_start` request, record the
source path and set the status to "Detecting...". -/
def start_eye_process (env : Env) (s : OPDState) (eye_id : Nat) :
    OPDState × List Eff :=
  match (potential_locs env eye_id).filter env.fileExists with
  | [] =>
      ({ s with detection_status :=
          s.detection_status.set eye_id "No eye video found." }, [])
  | video_loc :: _ =>
      if env.videosetEmpty video_loc then
        ({ s with detection_status :=
            s.detection_status.set eye_id "No eye video found." }, [])
      else
        ({ s with
            eye_frame_num := s.eye_frame_num.set eye_id (env.nValidFrames video_loc),
            eye_video_loc := s.eye_video_loc.set eye_id (some video_loc),
            detection_status := s.detection_status.set eye_id "Detecting..." },
         [Eff.eyeProcessShouldStart eye_id video_loc])

/-- `Offline_Pupil_Detection.stop_eye_process` (lines 342-344): emit the stop
request and clear the recorded source path. -/
def stop_eye_process (s : OPDState) (eye_id : Nat) : OPDState × List Eff :=
  ({ s with eye_video_loc := s.eye_video_loc.set eye_id none },
   [Eff.eyeProcessShouldStop eye_id])

/-- `Offline_Pupil_Detection.detection_progress` (lines 332-340): the ratio
of the stored record count for the current method over both eyes to the
summed expected frame counts, clamped to 1; 0 when the denominator is 0. -/
def detection_progress (s : OPDState) : Rat :=
  let total := s.eye_frame_num.sum
  if total ≠ 0 then
    min ((countSlice s.store s.detection_method : Rat) / (total : Rat)) 1
  else 0

/-- `Offline_Pupil_Detection.correlate_publish` (lines 371-375): install a
copy of the data store as `g_pool.pupil_positions`, announce the change and
persist to disk. -/
def correlate_publish (s : OPDState) : OPDState × List Eff :=
  ({ s with pupil_positions := s.store },
   [Eff.announceNew, Eff.saveOfflineData])

/-- The notification emitted for one eye by the `detection_paused` setter
(lines 463-473), when that eye has an active source path. -/
def pause_eff (should_pause : Bool) (loc : Option String) : Option Eff :=
  loc.map (fun p =>
    if should_pause then Eff.fileSourceShouldPause p else Eff.fileSourceShouldPlay p)

/-- The `detection_paused` property setter (lines 463-473): record the flag
and emit a pause/play control request for each eye with an active source. -/
def set_detection_paused (s : OPDState) (should_pause : Bool) :
    OPDState × List Eff :=
  ({ s with detection_paused := should_pause },
   [0, 1].filterMap (fun i => pause_eff should_pause (s.eye_video_loc.getD i none)))

/-- One iteration of the `for eye_id in range(2)` loop of `redetect`
(lines 407-417): restart the eye process when no source path is recorded,
otherwise emit a seek-to-frame-0 request on the recorded source. -/
def redetect_eye (env : Env) (s : OPDState) (eye_id : Nat) : OPDState × List Eff :=
  match s.eye_video_loc.getD eye_id none with
  | none => start_eye_process env s eye_id
  | some p => (s, [Eff.fileSourceSeek 0 p])

/-- `Offline_Pupil_Detection.redetect` (lines 401-417): clear the store,
install an (empty) copy as `g_pool.pupil_positions`, announce the change,
reset the finished and paused flags (the latter through the property setter,
which emits a play request per active eye), then restart or seek each eye. -/
def redetect (env : Env) (s : OPDState) : OPDState × List Eff :=
  let s1 : OPDState :=
    { s with store := [], pupil_positions := [], detection_finished_flag := some false }
  let p2 := set_detection_paused s1 false
  let p3 := redetect_eye env p2.1 0
  let p4 := redetect_eye env p3.1 1
  (p4.1, Eff.announceNew :: (p2.2 ++ p3.2 ++ p4.2))

/-- `Offline_Pupil_Detection.set_detection_mapping_mode` (lines 419-423):
broadcast the new mode, run a full `redetect`, then assign the method. -/
def set_detection_mapping_mode (env : Env) (s : OPDState) (new_mode : String) :
    OPDState × List Eff :=
  let p := redetect env s
  ({ p.1 with detection_method := new_mode },
   Eff.setDetectionMappingModeMsg new_mode :: p.2)

/-- A message drained from `data_sub` in `recent_events`: either a
`pupil.<eye>` detection result with its deserialized payload, or a
notification payload with its subject and source path. -/
inductive Msg where
  | pupilMsg (topic : String) (datum : PupilDatum)
  | notifyMsg (subject : String) (source_path : String)
  deriving Repr, DecidableEq

/-- `int(c)` for a single character, as used on `topic[-1]`: the digit value
when `c` is a decimal digit, failure (Python `ValueError`) otherwise. -/
def digitOfChar (c : Char) : Option Nat :=
  if c.isDigit then some (c.toNat - Char.toNat '0') else none

/-- The `for eyeid in (0, 1)` matching loop of `recent_events`
(lines 361-366): the first eye whose recorded source path equals the
notification's source path is marked complete and stopped; the `break`
makes at most one eye react. -/
def finish_eye (s : OPDState) (source_path : String) : OPDState × List Eff :=
  if s.eye_video_loc.getD 0 none = some source_path then
    stop_eye_process
      { s with detection_status := s.detection_status.set 0 "complete" } 0
  else if s.eye_video_loc.getD 1 none = some source_path then
    stop_eye_process
      { s with detection_status := s.detection_status.set 1 "complete" } 1
  else (s, [])

/-- Processing of one drained message in `recent_events` (lines 348-368).
A `pupil.` topic asserts that the topic's last digit equals the payload's
embedded `id` (a failed assertion aborts processing: `Except.error`), then
appends to the data store under the topic with the payload's timestamp.
A `file_source.video_finished` payload runs the eye-matching loop and then,
when both recorded source paths are cleared, `correlate_publish`. -/
def processMsg (s : OPDState) (m : Msg) : Except String (OPDState × List Eff) :=
  match m with
  | .pupilMsg topic datum =>
      match digitOfChar topic.back with
      | none => .error "ValueError"
      | some d =>
          if d = datum.id then
            .ok ({ s with store := storeAppend s.store topic datum }, [])
          else
            .error "AssertionError"
  | .notifyMsg subject source_path =>
      if subject = "file_source.video_finished" then
        let p1 := finish_eye s source_path
        if p1.1.eye_video_loc = [none, none] then
          let p2 := correlate_publish p1.1
          .ok (p2.1, p1.2 ++ p2.2)
        else .ok p1
      else .ok (s, [])

/-- The `while self.data_sub.new_data` drain loop of `recent_events`:
process the available messages in order, accumulating effects; a failed
assertion propagates and aborts the loop. -/
def drain (s : OPDState) (msgs : List Msg) : Except String (OPDState × List Eff) :=
  match msgs with
  | [] => .ok (s, [])
  | m :: rest =>
      match processMsg s m with
      | .error e => .error e
      | .ok p1 =>
          match drain p1.1 rest with
          | .error e => .error e
          | .ok p2 => .ok (p2.1, p1.2 ++ p2.2)

/-- Number of `correlate_publish` runs recorded in an effect trace: within
the drain loop, `save_offline_data` is emitted exactly by
`correlate_publish`, so its occurrences count the publishes. -/
def publishCount (effs : List Eff) : Nat :=
  effs.countP (fun e => decide (e = Eff.saveOfflineData))

/-- A notification delivered to `Offline_Pupil_Detection.on_notify`
(lines 377-382), discriminated on its subject. -/
inductive Notification where
  | eyeProcessStarted
  | eyeProcessStopped (eye_id : Nat)
  | otherSubject (subject : String)
  deriving Repr, DecidableEq

/-- `Offline_Pupil_Detection.on_notify` (lines 377-382):
`eye_process.started` re-broadcasts the current detection method (running
`set_detection_mapping_mode`), `eye_process.stopped` clears that eye's
recorded source path; everything else is ignored. -/
def on_notify (env : Env) (s : OPDState) (n : Notification) : OPDState × List Eff :=
  match n with
  | .eyeProcessStarted => set_detection_mapping_mode env s s.detection_method
  | .eyeProcessStopped eye_id =>
      ({ s with eye_video_loc := s.eye_video_loc.set eye_id none }, [])
  | .otherSubject _ => (s, [])

/-- `Offline_Pupil_Detection.cleanup` (lines 384-389): stop both eye
processes, set `data_sub = None` (release the subscription socket), then
`save_offline_data`. -/
def cleanup (s : OPDState) : OPDState × List Eff :=
  let p1 := stop_eye_process s 0
  let p2 := stop_eye_process p1.1 1
  (p2.1, p1.2 ++ p2.2 ++ [Eff.releaseDataSub] ++ [Eff.saveOfflineData])

/-- The session metadata object as persisted by `save_offline_data`
(lines 391-399) and loaded at construction; absent dictionary keys are
`none`. -/
structure RawMeta where
  version : Option Nat
  detection_method : Option String
  detection_status : List String
  deriving Repr, DecidableEq

/-- `Offline_Pupil_Detection.session_data_version` (line 246). -/
def session_data_version : Nat := 3

/-- The `try/except` metadata load of `__init__` (lines 261-268): a missing
file (`none`) or a version different from `session_data_version` yields the
reset object `{detection_status: ["unknown", "unknown"]}` with no other
keys; a matching version keeps the loaded object unchanged. -/
def load_session_meta (raw : Option RawMeta) : RawMeta :=
  match raw with
  | some m =>
      if m.version = some session_data_version then m
      else { version := none, detection_method := none,
             detection_status := ["unknown", "unknown"] }
  | none =>
      { version := none, detection_method := none,
        detection_status := ["unknown", "unknown"] }

/-- The state of `Offline_Pupil_Detection` at the end of `__init__` line 287:
metadata loaded with fallback, detection method forced to "3d" (line 270),
store loaded from disk (`loadedStore`), no recorded source paths yet, frame
counters seeded from the loaded store, paused flag false.  `g0` is the prior
content of the `g_pool.pupil_positions` shared slot. -/
def initState (raw : Option RawMeta) (loadedStore g0 : List DetectionRecord) :
    OPDState :=
  { detection_method := "3d",
    detection_status := (load_session_meta raw).detection_status,
    eye_video_loc := [none, none],
    eye_frame_num := [countEye loadedStore 0 "3d", countEye loadedStore 1 "3d"],
    store := loadedStore,
    pupil_positions := g0,
    detection_paused := false,
    detection_finished_flag := none }

/-- The `for eye_id in range(2)` startup loop of `__init__`
(lines 290-292): each eye whose status is not "complete" is started. -/
def init_started (env : Env) (raw : Option RawMeta)
    (loadedStore g0 : List DetectionRecord) : OPDState × List Eff :=
  let s0 := initState raw loadedStore g0
  let p1 :=
    if s0.detection_status.getD 0 "" ≠ "complete"
    then start_eye_process env s0 0 else (s0, [])
  let p2 :=
    if p1.1.detection_status.getD 1 "" ≠ "complete"
    then start_eye_process env p1.1 1 else (p1.1, [])
  (p2.1, p1.2 ++ p2.2)

/-- `Offline_Pupil_Detection.__init__` from line 261 on: load metadata and
store, start the incomplete eyes, and publish immediately when no eye ended
up with a recorded source path (lines 294-297). -/
def init (env : Env) (raw : Option RawMeta)
    (loadedStore g0 : List DetectionRecord) : OPDState × List Eff :=
  let p := init_started env raw loadedStore g0
  if p.1.eye_video_loc = [none, none] then
    let p2 := correlate_publish p.1
    (p2.1, p.2 ++ p2.2)
  else p

/-! ### Fixtures and helper lemmas -/

/-- A fixture environment in which no candidate eye-video path exists. -/
def envW : Env :=
  { rec_dir := "rec", fileExists := fun _ => false,
    videosetEmpty := fun _ => true, nValidFrames := fun _ => 0 }

/-- A fixture environment in which every candidate path exists and carries
ten decodable frames. -/
def envFull : Env :=
  { rec_dir := "rec", fileExists := fun _ => true,
    videosetEmpty := fun _ => false, nValidFrames := fun _ => 10 }

/-- A fixture orchestrator state with no active eye. -/
def baseW : OPDState :=
  { detection_method := "3d",
    detection_status := ["Detecting...", "Detecting..."],
    eye_video_loc := [none, none],
    eye_frame_num := [0, 0],
    store := [],
    pupil_positions := [],
    detection_paused := false,
    detection_finished_flag := none }

/-- A fixture detection payload for eye 0. -/
def datumW0 : PupilDatum := { id := 0, timestamp := 1, method := "3d" }

/-- A fixture detection payload for eye 1. -/
def datumW1 : PupilDatum := { id := 1, timestamp := 2, method := "3d" }

/-- A fixture stored record for eye 0. -/
def recW0 : DetectionRecord := mkRecord "pupil.0" datumW0

/-- A fixture stored record for eye 1. -/
def recW1 : DetectionRecord := mkRecord "pupil.1" datumW1

@[simp]
theorem start_eye_process_store (env : Env) (s : OPDState) (i : Nat) :
    (start_eye_process env s i).1.store = s.store := by
  unfold start_eye_process
  split
  · rfl
  · split <;> rfl

@[simp]
theorem start_eye_process_pp (env : Env) (s : OPDState) (i : Nat) :
    (start_eye_process env s i).1.pupil_positions = s.pupil_positions := by
  unfold start_eye_process
  split
  · rfl
  · split <;> rfl

@[simp]
theorem start_eye_process_method (env : Env) (s : OPDState) (i : Nat) :
    (start_eye_process env s i).1.detection_method = s.detection_method := by
  unfold start_eye_process
  split
  · rfl
  · split <;> rfl

@[simp]
theorem redetect_eye_store (env : Env) (s : OPDState) (i : Nat) :
    (redetect_eye env s i).1.store = s.store := by
  unfold redetect_eye
  split
  · exact start_eye_process_store env s i
  · rfl

@[simp]
theorem redetect_eye_pp (env : Env) (s : OPDState) (i : Nat) :
    (redetect_eye env s i).1.pupil_positions = s.pupil_positions := by
  unfold redetect_eye
  split
  · exact start_eye_process_pp env s i
  · rfl

theorem redetect_clears (env : Env) (s : OPDState) :
    (redetect env s).1.store = [] ∧ (redetect env s).1.pupil_positions = [] := by
  unfold redetect
  constructor <;> simp [set_detection_paused]

theorem init_started_store (env : Env) (raw : Option RawMeta)
    (L g0 : List DetectionRecord) :
    (init_started env raw L g0).1.store = L := by
  simp only [init_started]
  split <;> split <;> simp [initState]

/-! ### Claim C4 -/

/-- C4: `detection_progress` returns 0 whenever the summed expected frame
count over both eyes is 0; otherwise it returns the ratio of the stored
record count for the current detection method over both eyes to the summed
expected frame count, clamped at 1; and it never exceeds 1. -/
theorem detection_progress_spec (s : OPDState) :
    (s.eye_frame_num.sum = 0 → detection_progress s = 0) ∧
    (s.eye_frame_num.sum ≠ 0 →
      detection_progress s =
        min ((countSlice s.store s.detection_method : Rat) /
              (s.eye_frame_num.sum : Rat)) 1) ∧
    detection_progress s ≤ 1 := by
  refine ⟨fun h => by simp [detection_progress, h],
          fun h => by simp [detection_progress, h], ?_⟩
  unfold detection_progress
  dsimp only
  split
  · exact min_le_right _ _
  · norm_num

/-- A fixture state in which one frame is expected for eye 0 while two
records for the current method are stored. -/
def stateOver : OPDState :=
  { baseW with eye_frame_num := [1, 0], store := [recW0, recW1] }

/-- Witness for C4 at concrete inputs: the zero-denominator case and the
clamped case where the record count exceeds the expected frame count. -/
theorem detection_progress_spec_witness :
    detection_progress baseW = 0 ∧
    detection_progress stateOver =
      min ((countSlice stateOver.store stateOver.detection_method : Rat) /
            (stateOver.eye_frame_num.sum : Rat)) 1 :=
  ⟨(detection_progress_spec baseW).1 (by decide),
   (detection_progress_spec stateOver).2.1 (by decide)⟩

/-! ### Claim C5 -/

/-- C5: when no candidate eye video exists for an eye, or the video set at
the first existing candidate has no decodable frames, `start_eye_process`
only sets that eye's status to "No eye video found.": it emits no
`eye_process.should_start` request and records no source path. -/
theorem start_eye_process_no_video (env : Env) (s : OPDState) (eye_id : Nat)
    (h : (potential_locs env eye_id).filter env.fileExists = [] ∨
         ∃ v rest, (potential_locs env eye_id).filter env.fileExists = v :: rest ∧
           env.videosetEmpty v = true) :
    start_eye_process env s eye_id =
      ({ s with detection_status :=
          s.detection_status.set eye_id "No eye video found." }, []) ∧
    (start_eye_process env s eye_id).1.eye_video_loc = s.eye_video_loc ∧
    (start_eye_process env s eye_id).2 = [] := by
  have hmain : start_eye_process env s eye_id =
      ({ s with detection_status :=
          s.detection_status.set eye_id "No eye video found." }, []) := by
    rcases h with h | ⟨v, rest, h, hv⟩
    · simp [start_eye_process, h]
    · simp [start_eye_process, h, hv]
  exact ⟨hmain, by rw [hmain], by rw [hmain]⟩

/-- Witness for C5 at a concrete input: in the environment with no files,
starting eye 0 only records the error status. -/
theorem start_eye_process_no_video_witness :
    start_eye_process envW baseW 0 =
      ({ baseW with detection_status :=
          baseW.detection_status.set 0 "No eye video found." }, []) :=
  (start_eye_process_no_video envW baseW 0 (Or.inl (by decide))).1

/-! ### Claim C6 -/

/-- C6: a drained pupil.<E> message whose payload's embedded `id` differs
from the topic's eye digit fails the assertion and appends nothing; when
they agree the record is appended under the topic with the payload's
timestamp. -/
theorem pupil_message_id_check (s : OPDState) (topic : String)
    (datum : PupilDatum) (d : Nat) (hd : digitOfChar topic.back = some d) :
    (d ≠ datum.id →
      processMsg s (Msg.pupilMsg topic datum) = Except.error "AssertionError") ∧
    (d = datum.id →
      processMsg s (Msg.pupilMsg topic datum) =
        Except.ok ({ s with store := storeAppend s.store topic datum }, [])) ∧
    (mkRecord topic datum).topic = topic ∧
    (mkRecord topic datum).timestamp = datum.timestamp := by
  refine ⟨fun h => by simp [processMsg, hd, h],
          fun h => by simp [processMsg, hd, h], rfl, rfl⟩

/-- Witness for C6 at concrete inputs: on topic "pupil.0", a payload with
embedded id 1 is rejected and one with embedded id 0 is appended. -/
theorem pupil_message_id_check_witness :
    processMsg baseW (Msg.pupilMsg "pupil.0" datumW1) =
      Except.error "AssertionError" ∧
    processMsg baseW (Msg.pupilMsg "pupil.0" datumW0) =
      Except.ok ({ baseW with
        store := storeAppend baseW.store "pupil.0" datumW0 }, []) :=
  ⟨(pupil_message_id_check baseW "pupil.0" datumW1 0 (by decide)).1 (by decide),
   (pupil_message_id_check baseW "pupil.0" datumW0 0 (by decide)).2.1 (by decide)⟩

/-! ### Claim C8 -/

/-- C8: at construction, a missing metadata file or a version field
different from the current session data version causes a full reset to
defaults — the reset object carries detection_status ["unknown", "unknown"]
and no detection method (before the unconditional force to "3d"), and it is
identical to the reset used when the file is absent: no field of the loaded
object is merged in. -/
theorem session_meta_reset (m : RawMeta) (L g0 : List DetectionRecord)
    (h : m.version ≠ some session_data_version) :
    load_session_meta (some m) =
      { version := none, detection_method := none,
        detection_status := ["unknown", "unknown"] } ∧
    load_session_meta (some m) = load_session_meta none ∧
    (initState (some m) L g0).detection_status = ["unknown", "unknown"] ∧
    (initState (some m) L g0).detection_method = "3d" ∧
    (initState none L g0).detection_status = ["unknown", "unknown"] := by
  simp [load_session_meta, initState, h]

/-- A fixture metadata object with a stale version and non-default fields. -/
def staleMeta : RawMeta :=
  { version := some 2, detection_method := some "2d",
    detection_status := ["complete", "complete"] }

/-- Witness for C8 at a concrete input: loading version-2 metadata resets
every field instead of merging. -/
theorem session_meta_reset_witness :
    load_session_meta (some staleMeta) =
      { version := none, detection_method := none,
        detection_status := ["unknown", "unknown"] } ∧
    (initState (some staleMeta) [] []).detection_status =
      ["unknown", "unknown"] :=
  ⟨(session_meta_reset staleMeta [] [] (by decide)).1,
   (session_meta_reset staleMeta [] [] (by decide)).2.2.1⟩

/-! ### Claim C9 -/

/-- C9 as stated is false at a concrete input: `cleanup` does emit both stop
requests and does persist, but it sets `data_sub = None` (releasing the
message-bus subscription) *before* the persistence call, not after it. -/
theorem cleanup_order_counterexample :
    Eff.saveOfflineData ∈ (cleanup baseW).2 ∧
    Eff.releaseDataSub ∈ (cleanup baseW).2 ∧
    ¬ ((cleanup baseW).2.indexOf Eff.saveOfflineData <
        (cleanup baseW).2.indexOf Eff.releaseDataSub) := by
  decide

/-- C9 amended: teardown emits stop requests for both eyes unconditionally
and always persists the final state, but the persistence call comes after
the subscription socket is released: the effect order is stop eye 0, stop
eye 1, release `data_sub`, save. -/
theorem cleanup_spec (s : OPDState) :
    (cleanup s).2 =
      [Eff.eyeProcessShouldStop 0, Eff.eyeProcessShouldStop 1,
       Eff.releaseDataSub, Eff.saveOfflineData] ∧
    (cleanup s).1.eye_video_loc = (s.eye_video_loc.set 0 none).set 1 none := by
  simp [cleanup, stop_eye_process]

/-! ### Claim C10 -/

/-- C10: handling an eye_process.stopped notification for eye E only clears
that eye's recorded source path — every other field is unchanged and no
effect is emitted, so `correlate_publish` is never invoked from this path
even when both source paths end up cleared; and a drained notification
message with any subject other than file_source.video_finished leaves the
state untouched and publishes nothing, so the both-eyes-complete check runs
only for video_finished messages. -/
theorem eye_stopped_only_clears_loc (env : Env) (s : OPDState) (E : Nat)
    (_hE : E < 2) :
    on_notify env s (Notification.eyeProcessStopped E) =
      ({ s with eye_video_loc := s.eye_video_loc.set E none }, []) ∧
    (∀ subj p, subj ≠ "file_source.video_finished" →
      processMsg s (Msg.notifyMsg subj p) = Except.ok (s, [])) := by
  exact ⟨rfl, fun subj p h => by simp [processMsg, h]⟩

/-- A fixture state in which only eye 1 is still active. -/
def stateEye1 : OPDState := { baseW with eye_video_loc := [none, some "rec/eye1.mp4"] }

/-- Witness for C10 at a concrete input: stopping eye 1 from a state where
eye 0 is already cleared leaves both paths cleared without publishing. -/
theorem eye_stopped_only_clears_loc_witness :
    on_notify envW stateEye1 (Notification.eyeProcessStopped 1) =
      ({ stateEye1 with eye_video_loc := stateEye1.eye_video_loc.set 1 none }, []) :=
  (eye_stopped_only_clears_loc envW stateEye1 1 (by decide)).1

/-! ### Claim C7 -/

/-- C7: `set_detection_mapping_mode` broadcasts the new mode first, then
performs a full `redetect`, and only then assigns `detection_method`; the
store (and the published snapshot) are empty when the method changes, so
old and new results are never merged. -/
theorem set_mode_spec (env : Env) (s : OPDState) (new_mode : String) :
    set_detection_mapping_mode env s new_mode =
      ({ (redetect env s).1 with detection_method := new_mode },
       Eff.setDetectionMappingModeMsg new_mode :: (redetect env s).2) ∧
    (set_detection_mapping_mode env s new_mode).2.head? =
      some (Eff.setDetectionMappingModeMsg new_mode) ∧
    (set_detection_mapping_mode env s new_mode).1.detection_method = new_mode ∧
    (set_detection_mapping_mode env s new_mode).1.store = [] ∧
    (set_detection_mapping_mode env s new_mode).1.pupil_positions = [] := by
  refine ⟨rfl, rfl, rfl, ?_, ?_⟩
  · exact (redetect_clears env s).1
  · exact (redetect_clears env s).2

/-! ### Claim C1 -/

/-- A state of `base` whose two recorded eye source paths are `l0`, `l1`. -/
def eyeLocState (base : OPDState) (l0 l1 : Option String) : OPDState :=
  { base with eye_video_loc := [l0, l1] }

/-- C1: a video_finished message matching one eye's recorded source path
while the other eye's path is still set only stops that eye (one stop
request, no publish); the finished message of the last active eye stops it
and runs `correlate_publish` exactly once; and drains of both two-message
orders each publish exactly once, as the `publishCount` facts record. -/
theorem video_finished_publish_once (base : OPDState) (p0 p1 : String)
    (hne : p0 ≠ p1) :
    processMsg (eyeLocState base (some p0) (some p1))
        (Msg.notifyMsg "file_source.video_finished" p0) =
      Except.ok ({ base with
          detection_status := base.detection_status.set 0 "complete",
          eye_video_loc := [none, some p1] },
        [Eff.eyeProcessShouldStop 0]) ∧
    processMsg (eyeLocState base (some p0) (some p1))
        (Msg.notifyMsg "file_source.video_finished" p1) =
      Except.ok ({ base with
          detection_status := base.detection_status.set 1 "complete",
          eye_video_loc := [some p0, none] },
        [Eff.eyeProcessShouldStop 1]) ∧
    processMsg (eyeLocState base none (some p1))
        (Msg.notifyMsg "file_source.video_finished" p1) =
      Except.ok ({ base with
          detection_status := base.detection_status.set 1 "complete",
          eye_video_loc := [none, none],
          pupil_positions := base.store },
        [Eff.eyeProcessShouldStop 1, Eff.announceNew, Eff.saveOfflineData]) ∧
    processMsg (eyeLocState base (some p0) none)
        (Msg.notifyMsg "file_source.video_finished" p0) =
      Except.ok ({ base with
          detection_status := base.detection_status.set 0 "complete",
          eye_video_loc := [none, none],
          pupil_positions := base.store },
        [Eff.eyeProcessShouldStop 0, Eff.announceNew, Eff.saveOfflineData]) ∧
    drain (eyeLocState base (some p0) (some p1))
        [Msg.notifyMsg "file_source.video_finished" p0,
         Msg.notifyMsg "file_source.video_finished" p1] =
      Except.ok ({ base with
          detection_status :=
            (base.detection_status.set 0 "complete").set 1 "complete",
          eye_video_loc := [none, none],
          pupil_positions := base.store },
        [Eff.eyeProcessShouldStop 0, Eff.eyeProcessShouldStop 1,
         Eff.announceNew, Eff.saveOfflineData]) ∧
    drain (eyeLocState base (some p0) (some p1))
        [Msg.notifyMsg "file_source.video_finished" p1,
         Msg.notifyMsg "file_source.video_finished" p0] =
      Except.ok ({ base with
          detection_status :=
            (base.detection_status.set 1 "complete").set 0 "complete",
          eye_video_loc := [none, none],
          pupil_positions := base.store },
        [Eff.eyeProcessShouldStop 1, Eff.eyeProcessShouldStop 0,
         Eff.announceNew, Eff.saveOfflineData]) ∧
    publishCount [Eff.eyeProcessShouldStop 0] = 0 ∧
    publishCount [Eff.eyeProcessShouldStop 1] = 0 ∧
    publishCount [Eff.eyeProcessShouldStop 1, Eff.announceNew,
                  Eff.saveOfflineData] = 1 ∧
    publishCount [Eff.eyeProcessShouldStop 0, Eff.eyeProcessShouldStop 1,
                  Eff.announceNew, Eff.saveOfflineData] = 1 ∧
    publishCount [Eff.eyeProcessShouldStop 1, Eff.eyeProcessShouldStop 0,
                  Eff.announceNew, Eff.saveOfflineData] = 1 := by
  have h10 : p1 ≠ p0 := hne.symm
  refine ⟨?_, ?_, ?_, ?_, ?_, ?_, by decide, by decide, by decide, by decide,
          by decide⟩ <;>
    simp [drain, processMsg, finish_eye, stop_eye_process, correlate_publish,
          eyeLocState, hne, h10]

/-- Witness for C1 at concrete inputs: with source paths "a" and "b", the
two-message drain with eye 0 finishing first publishes exactly once. -/
theorem video_finished_publish_once_witness :
    drain (eyeLocState baseW (some "a") (some "b"))
        [Msg.notifyMsg "file_source.video_finished" "a",
         Msg.notifyMsg "file_source.video_finished" "b"] =
      Except.ok ({ baseW with
          detection_status :=
            (baseW.detection_status.set 0 "complete").set 1 "complete",
          eye_video_loc := [none, none],
          pupil_positions := baseW.store },
        [Eff.eyeProcessShouldStop 0, Eff.eyeProcessShouldStop 1,
         Eff.announceNew, Eff.saveOfflineData]) ∧
    publishCount [Eff.eyeProcessShouldStop 0, Eff.eyeProcessShouldStop 1,
                  Eff.announceNew, Eff.saveOfflineData] = 1 :=
  ⟨(video_finished_publish_once baseW "a" "b" (by decide)).2.2.2.2.1,
   (video_finished_publish_once baseW "a" "b" (by decide)).2.2.2.2.2.2.2.2.2.1⟩

/-! ### Claim C2 -/

/-- A fixture state with both eyes active while both statuses read
"complete". -/
def stateBothActive : OPDState :=
  { baseW with detection_status := ["complete", "complete"],
               eye_video_loc := [some "rec/eye0.mp4", some "rec/eye1.mp4"] }

/-- C2 as stated is false at a concrete input: `redetect` does not reset
the per-eye detection_status entries — from a state with both eyes active
and both statuses "complete", both still read "complete" afterwards, while
the rest of the redetect sequence (announce, unpause, seek both sources to
frame 0) runs as described. -/
theorem redetect_status_counterexample :
    (redetect envW stateBothActive).1.detection_status =
      ["complete", "complete"] ∧
    (redetect envW stateBothActive).2 =
      [Eff.announceNew,
       Eff.fileSourceShouldPlay "rec/eye0.mp4",
       Eff.fileSourceShouldPlay "rec/eye1.mp4",
       Eff.fileSourceSeek 0 "rec/eye0.mp4",
       Eff.fileSourceSeek 0 "rec/eye1.mp4"] := by
  constructor <;> rfl

/-- A state of the orchestrator given by its individual attribute values,
with the per-eye lists written out. -/
def mkState (method st0 st1 : String) (l0 l1 : Option String) (n0 n1 : Nat)
    (store pp : List DetectionRecord) (paused : Bool) (flag : Option Bool) :
    OPDState :=
  { detection_method := method, detection_status := [st0, st1],
    eye_video_loc := [l0, l1], eye_frame_num := [n0, n1],
    store := store, pupil_positions := pp,
    detection_paused := paused, detection_finished_flag := flag }

/-- C2 amended: for every state, `redetect` clears the data store, installs
the empty snapshot as `g_pool.pupil_positions` announcing the change first,
and resets the detection-finished and detection-paused flags (the latter
emitting a play request per active eye); then for each eye it either runs
`start_eye_process` (when no source path is recorded — observable as a
should_start request or as status "No eye video found.") or emits a
file_source.seek with frame_index 0 on the recorded path; the
detection_status entry of an eye with an active source is left unchanged,
not reset. -/
theorem redetect_spec (env : Env) (method st0 st1 : String)
    (l0 l1 : Option String) (n0 n1 : Nat) (store pp : List DetectionRecord)
    (paused : Bool) (flag : Option Bool) :
    (redetect env (mkState method st0 st1 l0 l1 n0 n1 store pp paused flag)).1.store
        = [] ∧
    (redetect env (mkState method st0 st1 l0 l1 n0 n1 store pp paused flag)).1.pupil_positions
        = [] ∧
    (redetect env (mkState method st0 st1 l0 l1 n0 n1 store pp paused flag)).2.head?
        = some Eff.announceNew ∧
    (redetect env (mkState method st0 st1 l0 l1 n0 n1 store pp paused flag)).1.detection_paused
        = false ∧
    (redetect env (mkState method st0 st1 l0 l1 n0 n1 store pp paused flag)).1.detection_finished_flag
        = some false ∧
    (∀ p, l0 = some p →
      Eff.fileSourceSeek 0 p ∈
        (redetect env (mkState method st0 st1 l0 l1 n0 n1 store pp paused flag)).2 ∧
      Eff.fileSourceShouldPlay p ∈
        (redetect env (mkState method st0 st1 l0 l1 n0 n1 store pp paused flag)).2 ∧
      (redetect env (mkState method st0 st1 l0 l1 n0 n1 store pp paused flag)).1.eye_video_loc.getD 0 none
        = some p ∧
      (redetect env (mkState method st0 st1 l0 l1 n0 n1 store pp paused flag)).1.detection_status.getD 0 ""
        = st0) ∧
    (l0 = none →
      (∃ v, Eff.eyeProcessShouldStart 0 v ∈
        (redetect env (mkState method st0 st1 l0 l1 n0 n1 store pp paused flag)).2) ∨
      (redetect env (mkState method st0 st1 l0 l1 n0 n1 store pp paused flag)).1.detection_status.getD 0 ""
        = "No eye video found.") ∧
    (∀ p, l1 = some p →
      Eff.fileSourceSeek 0 p ∈
        (redetect env (mkState method st0 st1 l0 l1 n0 n1 store pp paused flag)).2 ∧
      Eff.fileSourceShouldPlay p ∈
        (redetect env (mkState method st0 st1 l0 l1 n0 n1 store pp paused flag)).2 ∧
      (redetect env (mkState method st0 st1 l0 l1 n0 n1 store pp paused flag)).1.eye_video_loc.getD 1 none
        = some p ∧
      (redetect env (mkState method st0 st1 l0 l1 n0 n1 store pp paused flag)).1.detection_status.getD 1 ""
        = st1) ∧
    (l1 = none →
      (∃ v, Eff.eyeProcessShouldStart 1 v ∈
        (redetect env (mkState method st0 st1 l0 l1 n0 n1 store pp paused flag)).2) ∨
      (redetect env (mkState method st0 st1 l0 l1 n0 n1 store pp paused flag)).1.detection_status.getD 1 ""
        = "No eye video found.") := by
  rcases l0 with _ | p0 <;> rcases l1 with _ | p1
  · rcases hfl0 : (potential_locs env 0).filter env.fileExists with _ | ⟨v0, r0⟩ <;>
      rcases hfl1 : (potential_locs env 1).filter env.fileExists with _ | ⟨v1, r1⟩
    · simp [redetect, set_detection_paused, redetect_eye, pause_eff, mkState,
            start_eye_process, hfl0, hfl1]
    · by_cases hv1 : env.videosetEmpty v1 <;>
        simp [redetect, set_detection_paused, redetect_eye, pause_eff, mkState,
              start_eye_process, hfl0, hfl1, hv1]
    · by_cases hv0 : env.videosetEmpty v0 <;>
        simp [redetect, set_detection_paused, redetect_eye, pause_eff, mkState,
              start_eye_process, hfl0, hfl1, hv0]
    · by_cases hv0 : env.videosetEmpty v0 <;> by_cases hv1 : env.videosetEmpty v1 <;>
        simp [redetect, set_detection_paused, redetect_eye, pause_eff, mkState,
              start_eye_process, hfl0, hfl1, hv0, hv1]
  · rcases hfl0 : (potential_locs env 0).filter env.fileExists with _ | ⟨v0, r0⟩
    · simp [redetect, set_detection_paused, redetect_eye, pause_eff, mkState,
            start_eye_process, hfl0]
    · by_cases hv0 : env.videosetEmpty v0 <;>
        simp [redetect, set_detection_paused, redetect_eye, pause_eff, mkState,
              start_eye_process, hfl0, hv0]
  · rcases hfl1 : (potential_locs env 1).filter env.fileExists with _ | ⟨v1, r1⟩
    · simp [redetect, set_detection_paused, redetect_eye, pause_eff, mkState,
            start_eye_process, hfl1]
    · by_cases hv1 : env.videosetEmpty v1 <;>
        simp [redetect, set_detection_paused, redetect_eye, pause_eff, mkState,
              start_eye_process, hfl1, hv1]
  · simp [redetect, set_detection_paused, redetect_eye, pause_eff, mkState]

/-- Witness for C2 amended at concrete inputs: from a state with both eyes
active (paths "a" and "b") and both statuses "complete", redetect seeks eye
0's source to frame 0 while leaving its status untouched. -/
theorem redetect_spec_witness :
    Eff.fileSourceSeek 0 "a" ∈
      (redetect envW (mkState "3d" "complete" "complete" (some "a") (some "b")
        0 0 [] [] false none)).2 ∧
    (redetect envW (mkState "3d" "complete" "complete" (some "a") (some "b")
        0 0 [] [] false none)).1.detection_status.getD 0 "" = "complete" :=
  ⟨((redetect_spec envW "3d" "complete" "complete" (some "a") (some "b")
      0 0 [] [] false none).2.2.2.2.2.1 "a" rfl).1,
   ((redetect_spec envW "3d" "complete" "complete" (some "a") (some "b")
      0 0 [] [] false none).2.2.2.2.2.1 "a" rfl).2.2.2⟩

/-! ### Claim C3 -/

/-- A fixture persisted metadata object from a prior completed session. -/
def completeMeta : RawMeta :=
  { version := some 3, detection_method := some "3d",
    detection_status := ["complete", "complete"] }

/-- C3 as stated is false at a concrete input: when both eyes were already
complete in a prior session, construction ends with no recorded source
paths and publishes immediately — but the published snapshot is the loaded
(non-empty) store, not the empty result set. -/
theorem init_empty_snapshot_counterexample :
    (init envW (some completeMeta) [recW0] []).1.eye_video_loc =
      [none, none] ∧
    Eff.saveOfflineData ∈ (init envW (some completeMeta) [recW0] []).2 ∧
    (init envW (some completeMeta) [recW0] []).1.pupil_positions = [recW0] ∧
    [recW0] ≠ ([] : List DetectionRecord) := by
  refine ⟨rfl, ?_, rfl, by simp [recW0]⟩
  decide

/-- C3 amended: whenever construction-time startup leaves neither eye with
a recorded source path, the orchestrator immediately runs the publish path
(the change is announced and the data persisted), and the snapshot it
publishes is the loaded data store — the empty result set exactly when no
prior results were persisted. -/
theorem init_publishes_when_no_sources (env : Env) (raw : Option RawMeta)
    (L g0 : List DetectionRecord)
    (h : (init env raw L g0).1.eye_video_loc = [none, none]) :
    Eff.announceNew ∈ (init env raw L g0).2 ∧
    Eff.saveOfflineData ∈ (init env raw L g0).2 ∧
    (init env raw L g0).1.pupil_positions = L ∧
    (L = [] → (init env raw L g0).1.pupil_positions = []) := by
  by_cases hc : (init_started env raw L g0).1.eye_video_loc = [none, none]
  · have hstore := init_started_store env raw L g0
    refine ⟨?_, ?_, ?_, ?_⟩ <;>
      simp [init, hc, correlate_publish, hstore]
  · exfalso
    apply hc
    simp [init, hc] at h

/-- Witness for C3 amended at concrete inputs: a fresh session in an
environment with no eye videos starts nothing, publishes immediately, and
the published snapshot is empty. -/
theorem init_publishes_when_no_sources_witness :
    Eff.announceNew ∈ (init envW none [] []).2 ∧
    Eff.saveOfflineData ∈ (init envW none [] []).2 ∧
    (init envW none [] []).1.pupil_positions = [] :=
  ⟨(init_publishes_when_no_sources envW none [] [] (by decide)).1,
   (init_publishes_when_no_sources envW none [] [] (by decide)).2.1,
   (init_publishes_when_no_sources envW none [] [] (by decide)).2.2.1⟩

end PupilProducers
